import Mathlib

/-!
Verification of the vimputti device facade subsystem.

Shallow embedding of the Rust source (protocol.rs, manager/mod.rs,
manager/device.rs, manager/sysfs.rs, manager/uinput.rs) as executable
Lean definitions, followed by theorems settling the frozen claims.

Machine integers are modelled as Nat or Int; where the source casts with
possible wrap-around the reduction modulo 2^w is written explicitly.
Wall-clock timestamps stamped into wire records are environment input
that none of the claims constrain; record structures therefore omit the
time fields and carry the protocol-relevant fields only.
-/

namespace Vimputti

/-! ## protocol.rs : data model -/

/-- Linux input event type constants (protocol.rs). -/
def EV_SYN : Nat := 0x00

/-- EV_KEY event type constant (protocol.rs). -/
def EV_KEY : Nat := 0x01

/-- EV_REL event type constant (protocol.rs). -/
def EV_REL : Nat := 0x02

/-- EV_ABS event type constant (protocol.rs). -/
def EV_ABS : Nat := 0x03

/-- SYN_REPORT code constant (protocol.rs). -/
def SYN_REPORT : Nat := 0

/-- Bus type for input devices (protocol.rs `BusType`). -/
inductive BusType
  | Usb
  | Bluetooth
  | Virtual
  deriving DecidableEq, Repr

/-- Discriminant value of a bus type (`BusType` as u16). -/
def BusType.toNat : BusType → Nat
  | .Usb => 0x03
  | .Bluetooth => 0x05
  | .Virtual => 0x06

/-- Common controller buttons (protocol.rs `Button`). -/
inductive Button
  | A
  | B
  | X
  | Y
  | UpperLeftBumper
  | UpperRightBumper
  | LowerLeftTrigger
  | LowerRightTrigger
  | LeftStick
  | RightStick
  | DPadUp
  | DPadDown
  | DPadLeft
  | DPadRight
  | Start
  | Select
  | Guide
  | Custom (code : Nat)
  deriving DecidableEq, Repr

/-- Convert button to Linux input event code (protocol.rs `Button::to_ev_code`). -/
def Button.to_ev_code : Button → Nat
  | .A => 0x130
  | .B => 0x131
  | .X => 0x133
  | .Y => 0x134
  | .UpperLeftBumper => 0x136
  | .UpperRightBumper => 0x137
  | .LowerLeftTrigger => 0x138
  | .LowerRightTrigger => 0x139
  | .LeftStick => 0x13d
  | .RightStick => 0x13e
  | .Start => 0x13b
  | .Select => 0x13a
  | .Guide => 0x13c
  | .DPadUp => 0x220
  | .DPadDown => 0x221
  | .DPadLeft => 0x222
  | .DPadRight => 0x223
  | .Custom code => code

/-- Convert from Linux input event code to Button (protocol.rs `Button::from_ev_code`). -/
def Button.from_ev_code (code : Nat) : Option Button :=
  if code = 0x130 then some .A
  else if code = 0x131 then some .B
  else if code = 0x133 then some .X
  else if code = 0x134 then some .Y
  else if code = 0x136 then some .UpperLeftBumper
  else if code = 0x137 then some .UpperRightBumper
  else if code = 0x138 then some .LowerLeftTrigger
  else if code = 0x139 then some .LowerRightTrigger
  else if code = 0x13d then some .LeftStick
  else if code = 0x13e then some .RightStick
  else if code = 0x13b then some .Start
  else if code = 0x13a then some .Select
  else if code = 0x13c then some .Guide
  else if code = 0x220 then some .DPadUp
  else if code = 0x221 then some .DPadDown
  else if code = 0x222 then some .DPadLeft
  else if code = 0x223 then some .DPadRight
  else none

/-- Controller axis (protocol.rs `Axis`). -/
inductive Axis
  | LeftStickX
  | LeftStickY
  | RightStickX
  | RightStickY
  | UpperLeftBumper
  | UpperRightBumper
  | LowerLeftTrigger
  | LowerRightTrigger
  | DPadX
  | DPadY
  | Custom (code : Nat)
  deriving DecidableEq, Repr

/-- Convert axis to Linux input event code (protocol.rs `Axis::to_ev_code`). -/
def Axis.to_ev_code : Axis → Nat
  | .LeftStickX => 0x00
  | .LeftStickY => 0x01
  | .RightStickX => 0x03
  | .RightStickY => 0x04
  | .UpperLeftBumper => 0x13
  | .UpperRightBumper => 0x12
  | .LowerLeftTrigger => 0x15
  | .LowerRightTrigger => 0x14
  | .DPadX => 0x10
  | .DPadY => 0x11
  | .Custom code => code

/-- Convert from Linux input event code to Axis (protocol.rs `Axis::from_ev_code`). -/
def Axis.from_ev_code (code : Nat) : Option Axis :=
  if code = 0x00 then some .LeftStickX
  else if code = 0x01 then some .LeftStickY
  else if code = 0x03 then some .RightStickX
  else if code = 0x04 then some .RightStickY
  else if code = 0x13 then some .UpperLeftBumper
  else if code = 0x12 then some .UpperRightBumper
  else if code = 0x15 then some .LowerLeftTrigger
  else if code = 0x14 then some .LowerRightTrigger
  else if code = 0x10 then some .DPadX
  else if code = 0x11 then some .DPadY
  else none

/-- Configuration for an axis (protocol.rs `AxisConfig`). -/
structure AxisConfig where
  axis : Axis
  min : Int
  max : Int
  fuzz : Int
  flat : Int
  deriving DecidableEq, Repr

/-- Configuration for creating a virtual device (protocol.rs `DeviceConfig`). -/
structure DeviceConfig where
  name : String
  vendor_id : Nat
  product_id : Nat
  version : Nat
  bustype : BusType
  buttons : List Button
  axes : List AxisConfig
  deriving DecidableEq, Repr

/-- Input event to send to a device (protocol.rs `InputEvent`). -/
inductive InputEvent
  | button (button : Button) (pressed : Bool)
  | axis (axis : Axis) (value : Int)
  | raw (event_type : Nat) (code : Nat) (value : Int)
  | sync
  deriving DecidableEq, Repr

/-- Linux input event record (protocol.rs `LinuxInputEvent`); the two
timestamp fields (stamped from the wall clock at encode time) are omitted
as environment input. On the wire each record occupies 24 bytes. -/
structure LinuxInputEvent where
  event_type : Nat
  code : Nat
  value : Int
  deriving DecidableEq, Repr

/-- Linux joystick event record (protocol.rs `LinuxJsEvent`); the u32
time-of-day field is omitted as environment input. On the wire each record
occupies 8 bytes. -/
structure LinuxJsEvent where
  value : Int
  type_ : Nat
  number : Nat
  deriving DecidableEq, Repr

/-! ## manager/device.rs : event translation and fan-out encoding -/

/-- Modelled from the spec: `InputEvent::to_linux_input_event` is called by
`VirtualDevice::send_evdev_events` (device.rs) but its definition is absent
from the source snapshot of protocol.rs. Spec 4.C step 1: each logical event
translates via the Button/Axis code tables, an explicit `Sync` produces
`SYN_REPORT`, and a `Raw{t,c,v}` is passed through; buttons carry EV_KEY
with value 1/0, axes carry EV_ABS with the raw value. -/
def InputEvent.to_linux_input_event : InputEvent → LinuxInputEvent
  | .button b pressed => ⟨EV_KEY, b.to_ev_code, if pressed then 1 else 0⟩
  | .axis a v => ⟨EV_ABS, a.to_ev_code, v⟩
  | .raw t c v => ⟨t, c, v⟩
  | .sync => ⟨EV_SYN, SYN_REPORT, 0⟩

/-- Predicate used by the batch scan in `send_evdev_events`
(`event.event_type == EV_SYN && event.code == SYN_REPORT`). -/
def LinuxInputEvent.is_syn_report (e : LinuxInputEvent) : Bool :=
  e.event_type == EV_SYN && e.code == SYN_REPORT

/-- Record list built by `VirtualDevice::send_evdev_events` (device.rs
lines 262-283): translate the batch, scan the WHOLE translated batch for any
SYN_REPORT, and append one only when none was found and the batch is
non-empty. The concatenated 24-byte encodings of this list form the byte
buffer written to every connected event-stream consumer. -/
def send_evdev_records (events : List InputEvent) : List LinuxInputEvent :=
  let linux_events := events.map InputEvent.to_linux_input_event
  let has_sync := linux_events.any LinuxInputEvent.is_syn_report
  if !has_sync && !linux_events.isEmpty then
    linux_events ++ [⟨EV_SYN, SYN_REPORT, 0⟩]
  else
    linux_events

/-- Joystick event kind constant (device.rs `JS_EVENT_BUTTON`). -/
def JS_EVENT_BUTTON : Nat := 0x01

/-- Joystick event kind constant (device.rs `JS_EVENT_AXIS`). -/
def JS_EVENT_AXIS : Nat := 0x02

/-- Two's-complement cast of an integer to i16 (`as i16` in Rust). -/
def toI16 (x : Int) : Int := ((x + 32768) % 65536) - 32768

/-- Rust `Ord::clamp`: below the lower bound gives the bound, above the
upper bound gives the bound, otherwise the value itself. -/
def clampI32 (v lo hi : Int) : Int :=
  if v < lo then lo else if hi < v then hi else v

/-- Joystick records produced for one logical event by
`VirtualDevice::send_joystick_events` (device.rs lines 323-351): a button
event is encoded only when the button occurs in config.buttons (number =
its first position, cast to u8); an axis event only when the axis occurs in
config.axes (value clamped into the signed-16-bit range BEFORE the i16
cast); raw and sync events are dropped. -/
def js_records_for_event (config : DeviceConfig) (e : InputEvent) : List LinuxJsEvent :=
  match e with
  | .button b pressed =>
      match config.buttons.findIdx? (fun x => x == b) with
      | some button_idx =>
          [⟨if pressed then 1 else 0, JS_EVENT_BUTTON, button_idx % 256⟩]
      | none => []
  | .axis a v =>
      match config.axes.findIdx? (fun ac => ac.axis == a) with
      | some axis_idx =>
          let clamped_value := clampI32 v (-32768) 32767
          [⟨toI16 clamped_value, JS_EVENT_AXIS, axis_idx % 256⟩]
      | none => []
  | .raw _ _ _ => []
  | .sync => []

/-- Record list built by `VirtualDevice::send_joystick_events` for a batch:
concatenation of the per-event encodings, in batch order. -/
def send_joystick_records (config : DeviceConfig) (events : List InputEvent) : List LinuxJsEvent :=
  (events.map (js_records_for_event config)).flatten

/-- A joystick node exists when the config declares any buttons or axes
(device.rs lines 81-83). -/
def hasJoystickNode (config : DeviceConfig) : Bool :=
  !config.buttons.isEmpty || !config.axes.isEmpty

/-- Byte count of the buffer written to each event-stream consumer for one
batch: 24 bytes per record. -/
def evdevWireLen (events : List InputEvent) : Nat :=
  24 * (send_evdev_records events).length

/-- Byte count written to each joystick consumer for one batch: zero when
no joystick node exists (`send_joystick_events` returns early), otherwise
8 bytes per record. -/
def jsWireLen (config : DeviceConfig) (events : List InputEvent) : Nat :=
  if hasJoystickNode config then 8 * (send_joystick_records config events).length else 0

/-! ## manager/mod.rs : control plane -/

/-- Unique identifier for a virtual device (protocol.rs `DeviceId`). -/
abbrev DeviceId := Nat

/-- Commands that can be sent to the manager (protocol.rs `ControlCommand`):
exactly five variants. -/
inductive ControlCommand
  | CreateDevice (config : DeviceConfig)
  | DestroyDevice (device_id : DeviceId)
  | SendInput (device_id : DeviceId) (events : List InputEvent)
  | ListDevices
  | Ping
  deriving DecidableEq, Repr

/-- Results returned by the manager (protocol.rs `ControlResult`): exactly
six variants. The `DeviceList` payload is abstracted to the listed device
ids. -/
inductive ControlResult
  | DeviceCreated (device_id : DeviceId) (event_node : String)
  | DeviceDestroyed
  | InputSent
  | DeviceList (ids : List DeviceId)
  | Pong
  | Error (message : String)
  deriving DecidableEq, Repr

/-- Wire tag under which serde_json serializes/parses a `ControlCommand`
variant (externally tagged enum: the tag is the variant name). -/
def ControlCommand.tag : ControlCommand → String
  | .CreateDevice _ => "CreateDevice"
  | .DestroyDevice _ => "DestroyDevice"
  | .SendInput _ _ => "SendInput"
  | .ListDevices => "ListDevices"
  | .Ping => "Ping"

/-- The set of command tags the control-plane parser accepts: the variant
names of `ControlCommand` in protocol.rs. A line whose command tag is not
in this set fails to parse; `Manager::handle_client` logs a warning and
skips it without sending any response. -/
def controlCommandTags : List String :=
  ["CreateDevice", "DestroyDevice", "SendInput", "ListDevices", "Ping"]

/-- Whether a command tag is accepted by the control-plane parser. -/
def isControlCommandTag (tag : String) : Bool :=
  controlCommandTags.contains tag

/-- The set of result tags the manager can produce: the variant names of
`ControlResult` in protocol.rs. -/
def controlResultTags : List String :=
  ["DeviceCreated", "DeviceDestroyed", "InputSent", "DeviceList", "Pong", "Error"]

/-- Registry removal (`HashMap::remove` keyed by device id), modelled on the
association list: drop every pair with that key. -/
def registryRemove (devices : List (DeviceId × DeviceConfig)) (id : DeviceId) :
    List (DeviceId × DeviceConfig) :=
  devices.filter (fun p => !(p.1 == id))

/-- Manager state (manager/mod.rs): the `next_device_id` counter and the
device registry. The source guards both with mutexes; command processing
is serialized per request, so a command is one atomic state transition. -/
structure ManagerState where
  next_device_id : DeviceId
  devices : List (DeviceId × DeviceConfig)
  deriving DecidableEq, Repr

/-- Event node name for a device id (`format!("event{}", id)`). -/
def event_node_name (id : DeviceId) : String := "event" ++ toString id

/-- `Manager::process_command` (manager/mod.rs lines 245-354) on the success
path of device construction (construction failure is modelled separately
with explicit failure injection): CreateDevice takes the current counter
value, increments the counter, and inserts the new device; DestroyDevice
removes the device or reports not-found; SendInput succeeds exactly when
the device is live; ListDevices lists the registry; Ping answers Pong.
There is no freelist anywhere in this state. -/
def process_command (st : ManagerState) : ControlCommand → ControlResult × ManagerState
  | .CreateDevice config =>
      let device_id := st.next_device_id
      (.DeviceCreated device_id (event_node_name device_id),
       { next_device_id := st.next_device_id + 1,
         devices := (device_id, config) :: st.devices })
  | .DestroyDevice device_id =>
      match st.devices.lookup device_id with
      | some _ =>
          (.DeviceDestroyed,
           { st with devices := registryRemove st.devices device_id })
      | none =>
          (.Error ("Device " ++ toString device_id ++ " not found"), st)
  | .SendInput device_id _events =>
      match st.devices.lookup device_id with
      | some _ => (.InputSent, st)
      | none => (.Error ("Device " ++ toString device_id ++ " not found"), st)
  | .ListDevices => (.DeviceList (st.devices.map Prod.fst), st)
  | .Ping => (.Pong, st)

/-- Device ids handed out by the CreateDevice responses along a command
sequence, in order. -/
def created_ids (st : ManagerState) : List ControlCommand → List DeviceId
  | [] => []
  | c :: rest =>
      let r := process_command st c
      match r.1 with
      | .DeviceCreated id _ => id :: created_ids r.2 rest
      | _ => created_ids r.2 rest

/-- Number of CreateDevice commands in a sequence. -/
def countCreates : List ControlCommand → Nat
  | [] => 0
  | .CreateDevice _ :: rest => countCreates rest + 1
  | _ :: rest => countCreates rest

/-! ## manager/sysfs.rs : sysfs projector -/

/-- Lowercase hexadecimal rendering of a natural number, digit list form.
The first argument is recursion fuel (any bound at least the digit count);
the rendering matches Rust `format!("\x7b:x\x7d", n)`. -/
def natToHexAux : Nat → Nat → List Char → List Char
  | 0, _, acc => acc
  | fuel + 1, n, acc =>
      if n = 0 then acc
      else natToHexAux fuel (n / 16) (Nat.digitChar (n % 16) :: acc)

/-- Lowercase hexadecimal rendering of a natural number, as Rust
`format!("\x7b:x\x7d", n)` produces it. -/
def natToHex (n : Nat) : String :=
  if n = 0 then "0" else ⟨natToHexAux (n + 1) n []⟩

/-- `SysfsGenerator::calculate_abs_bits` (sysfs.rs lines 306-321): OR one
bit per declared axis code below 64 into a single u64 group and render it
in lowercase hex; an axis-free config renders "0". -/
def calculate_abs_bits (config : DeviceConfig) : String :=
  if config.axes.isEmpty then "0"
  else
    let bits := config.axes.foldl
      (fun b ac =>
        let code := ac.axis.to_ev_code
        if code < 64 then b ||| (1 <<< code) else b)
      0
    natToHex bits

/-- `SysfsGenerator::calculate_ev_bits` (sysfs.rs lines 259-271): bit 0
(EV_SYN) always, bit EV_KEY when buttons exist, bit EV_ABS when axes
exist. -/
def calculate_ev_bits (config : DeviceConfig) : String :=
  let bits : Nat := 1
  let bits := if !config.buttons.isEmpty then bits ||| (1 <<< EV_KEY) else bits
  let bits := if !config.axes.isEmpty then bits ||| (1 <<< EV_ABS) else bits
  natToHex bits

/-- Rust `str::trim_start_matches` on character lists: repeatedly strip the
pattern while it is a prefix. The first argument is recursion fuel (the
subject length suffices, as each strip removes at least one character). -/
def trimStartMatchesAux (pat : List Char) : Nat → List Char → List Char
  | 0, s => s
  | fuel + 1, s =>
      if !pat.isEmpty && pat.isPrefixOf s then
        trimStartMatchesAux pat fuel (s.drop pat.length)
      else s

/-- Rust `str::trim_start_matches` for string patterns. -/
def trim_start_matches (s pat : String) : String :=
  ⟨trimStartMatchesAux pat.data s.data.length s.data⟩

/-- Content of the `event{id}/dev` file written by
`SysfsGenerator::create_devices_virtual` (sysfs.rs lines 127-131):
`format!("13:\x7b\x7d\n", event_node.trim_start_matches("event"))`. -/
def dev_file_content (id : DeviceId) : String :=
  "13:" ++ trim_start_matches (event_node_name id) "event" ++ "\n"

/-- Name of the udev data file written by
`SysfsGenerator::create_udev_data_file` (sysfs.rs lines 156-162): minor is
64 + id, file is `c13:{minor}`. -/
def udev_data_file_name (id : DeviceId) : String :=
  "c13:" ++ toString (64 + id)

/-- Minor device number the seccomp launcher fakes in fstat for an event
node (vimputti-launcher stat_handler.rs lines 121-127): 64 + N for
`eventN`, matching the udev data file naming. -/
def launcher_fstat_minor (id : DeviceId) : Nat := 64 + id

/-! ## manager/uinput.rs : uinput relay -/

/-- Shared state the uinput relay operates on (uinput.rs `UinputEmulator`):
the device registry and id counter shared with the manager, plus the
source-to-mirror map. -/
structure UinputServerState where
  devices : List (DeviceId × DeviceConfig)
  next_device_id : DeviceId
  mirror_map : List (DeviceId × DeviceId)
  deriving DecidableEq, Repr

/-- Per-session variables of `UinputEmulator::handle_client` (uinput.rs
lines 204-205): `bound_device_id` and `created_device_id`. -/
structure UinputSessionVars where
  bound_device_id : Option DeviceId
  created_device_id : Option DeviceId
  deriving DecidableEq, Repr

/-- `HashMap::insert` on the mirror map: overwrite any entry for the
source key. -/
def mirrorMapInsert (m : List (DeviceId × DeviceId)) (source mirror : DeviceId) :
    List (DeviceId × DeviceId) :=
  (source, mirror) :: m.filter (fun p => !(p.1 == source))

/-- `DevCreate` processing (uinput.rs lines 408-476), success path of the
mirror device construction: the source is the minimum live device id (no
device gives a failure response and no state change); the mirror id is
allocated from the shared counter; the mirror device is registered and
`source -> mirror` inserted into the mirror map. Both session variables
end up holding the mirror id (the source swaps the two `&mut` arguments at
the call site, so the two assignments land crosswise, with the same
outcome). The Bool is the success flag of the response. -/
def uinput_dev_create (g : UinputServerState) (s : UinputSessionVars)
    (config : DeviceConfig) : UinputServerState × UinputSessionVars × Bool :=
  match (g.devices.map Prod.fst).min? with
  | none => (g, s, false)
  | some source_device_id =>
      let mirror_device_id := g.next_device_id
      ({ devices := (mirror_device_id, config) :: g.devices,
         next_device_id := g.next_device_id + 1,
         mirror_map := mirrorMapInsert g.mirror_map source_device_id mirror_device_id },
       { bound_device_id := some mirror_device_id,
         created_device_id := some mirror_device_id },
       true)

/-- `DevDestroy` processing as observed from `handle_client` (uinput.rs
lines 478-510; the swapped `&mut` arguments make the `take()` hit the
session's `bound_device_id`): when a device is held, remove it from the
registry and erase every mirror-map entry whose VALUE is that device id;
both session variables become None. -/
def uinput_dev_destroy (g : UinputServerState) (s : UinputSessionVars) :
    UinputServerState × UinputSessionVars :=
  match s.bound_device_id with
  | some device_id =>
      ({ g with
          devices := registryRemove g.devices device_id,
          mirror_map := g.mirror_map.filter (fun p => !(p.2 == device_id)) },
       { bound_device_id := none, created_device_id := none })
  | none => (g, { bound_device_id := none, created_device_id := none })

/-- Transport-EOF cleanup of `handle_client` (uinput.rs lines 303-310):
when the session created a device, remove it from the registry. Nothing
else: in particular the mirror map is NOT touched. -/
def uinput_session_eof (g : UinputServerState) (s : UinputSessionVars) :
    UinputServerState :=
  match s.created_device_id with
  | some device_id => { g with devices := registryRemove g.devices device_id }
  | none => g

/-! ## Device construction with failure injection (device.rs + mod.rs) -/

/-- On-disk artifact paths, relative to the base directory. -/
abbrev Path := String

/-- The externally visible filesystem surface, as the set of artifact
paths present on disk. -/
abbrev Fs := List Path

/-- Remove an artifact (`std::fs::remove_file` / `remove_dir_all`;
tolerates absence). -/
def fsRemove (fs : Fs) (p : Path) : Fs := fs.filter (fun q => !(q == p))

/-- Create an artifact, overwriting a stale one. -/
def fsAdd (fs : Fs) (p : Path) : Fs := p :: fsRemove fs p

/-- Event socket path for a device (device.rs line 32). -/
def devices_event_socket_path (id : DeviceId) : Path :=
  "devices/event" ++ toString id

/-- Joystick socket path for a device (device.rs line 85). -/
def devices_js_socket_path (id : DeviceId) : Path :=
  "devices/js" ++ toString id

/-- Feedback socket path for a device (device.rs lines 64-66). -/
def devices_feedback_socket_path (id : DeviceId) : Path :=
  "devices/event" ++ toString id ++ ".feedback"

/-- Sysfs input subtree for a device (sysfs.rs lines 52-54); removed
wholesale by `remove_dir_all`, so modelled as one artifact. -/
def sysfs_input_dir_path (id : DeviceId) : Path :=
  "sysfs/devices/virtual/input/input" ++ toString id

/-- Sysfs class symlink for a device (sysfs.rs lines 27-38). -/
def sysfs_class_link_path (id : DeviceId) : Path :=
  "sysfs/class/input/event" ++ toString id

/-- Udev data file path for a device (sysfs.rs lines 161-165). -/
def udev_data_path (id : DeviceId) : Path :=
  "udev_data/" ++ udev_data_file_name id

/-- One fallible creation step: `failing` is the set of artifact paths whose
bind or write the environment makes fail. Success adds the artifact. -/
def tryStep (failing : List Path) (p : Path) (fs : Fs) : Option Fs :=
  if failing.contains p then none else some (fsAdd fs p)

/-- `VirtualDevice::create` (device.rs lines 26-121) with
`SysfsGenerator::create_device_files` (sysfs.rs lines 9-20) inlined, over
the artifact model, with failure injection. Step order as in the source:
remove the stale event socket and bind it; create the sysfs input subtree,
the class symlink, and the udev data file; remove the stale feedback socket
and bind it; when the config declares buttons or axes, remove the stale
joystick socket and bind it. The first failing step makes the function
return Err immediately; artifacts created by earlier steps are left on disk
(no rollback runs - `Drop` only runs for a fully constructed device). The
Bool is success. -/
def virtual_device_create (failing : List Path) (id : DeviceId)
    (config : DeviceConfig) (fs : Fs) : Bool × Fs :=
  let fs := fsRemove fs (devices_event_socket_path id)
  match tryStep failing (devices_event_socket_path id) fs with
  | none => (false, fs)
  | some fs =>
    match tryStep failing (sysfs_input_dir_path id) fs with
    | none => (false, fs)
    | some fs =>
      match tryStep failing (sysfs_class_link_path id) fs with
      | none => (false, fs)
      | some fs =>
        match tryStep failing (udev_data_path id) fs with
        | none => (false, fs)
        | some fs =>
          let fs := fsRemove fs (devices_feedback_socket_path id)
          match tryStep failing (devices_feedback_socket_path id) fs with
          | none => (false, fs)
          | some fs =>
            if hasJoystickNode config then
              let fs := fsRemove fs (devices_js_socket_path id)
              match tryStep failing (devices_js_socket_path id) fs with
              | none => (false, fs)
              | some fs => (true, fs)
            else (true, fs)

/-- Manager state including the filesystem surface, for the
failure-injected construction model. -/
structure ManagerFsState where
  next_device_id : DeviceId
  devices : List (DeviceId × DeviceConfig)
  fs : Fs
  deriving DecidableEq, Repr

/-- `Manager::process_command` CreateDevice arm (manager/mod.rs lines
246-283) with failure injection: the device id is taken and the counter
incremented BEFORE construction is attempted; on construction failure a
structured Error is returned, the registry is unchanged, the counter stays
incremented, and the filesystem is left as the failed construction left
it. -/
def manager_create_device (failing : List Path) (st : ManagerFsState)
    (config : DeviceConfig) : ControlResult × ManagerFsState :=
  let device_id := st.next_device_id
  match virtual_device_create failing device_id config st.fs with
  | (true, fs1) =>
      (.DeviceCreated device_id (event_node_name device_id),
       { next_device_id := device_id + 1,
         devices := (device_id, config) :: st.devices,
         fs := fs1 })
  | (false, fs1) =>
      (.Error "Failed to create device",
       { next_device_id := device_id + 1,
         devices := st.devices,
         fs := fs1 })

/-- A small concrete controller configuration used to instantiate
hypotheses at concrete inputs: one button (A), one full-range left-stick
axis. -/
def sampleConfig : DeviceConfig :=
  { name := "controller", vendor_id := 0x045e, product_id := 0x028e,
    version := 0x0110, bustype := .Usb,
    buttons := [Button.A],
    axes := [⟨Axis.LeftStickX, -32768, 32767, 0, 0⟩] }

/-- A configuration declaring all eight standard gamepad axes of the
external interface table (sticks, triggers, D-pad). -/
def standardAxesConfig : DeviceConfig :=
  { name := "pad", vendor_id := 0, product_id := 0, version := 0, bustype := .Usb,
    buttons := [],
    axes := [⟨Axis.LeftStickX, -32768, 32767, 0, 0⟩,
             ⟨Axis.LeftStickY, -32768, 32767, 0, 0⟩,
             ⟨Axis.RightStickX, -32768, 32767, 0, 0⟩,
             ⟨Axis.RightStickY, -32768, 32767, 0, 0⟩,
             ⟨Axis.LowerLeftTrigger, 0, 255, 0, 0⟩,
             ⟨Axis.LowerRightTrigger, 0, 255, 0, 0⟩,
             ⟨Axis.DPadX, -1, 1, 0, 0⟩,
             ⟨Axis.DPadY, -1, 1, 0, 0⟩] }

/-! ## Helper lemmas -/

/-- A findIdx? scan over a list none of whose elements satisfies the
predicate finds nothing. -/
theorem findIdx_none_of_forall {α : Type} (p : α → Bool) (l : List α)
    (h : ∀ x ∈ l, p x = false) : l.findIdx? p = none := by
  induction l with
  | nil => rfl
  | cons x xs ih =>
      have hx := h x (List.mem_cons_self x xs)
      simp [List.findIdx?_cons, hx,
        ih (fun y hy => h y (List.mem_cons_of_mem x hy))]

/-- Looking up a key in an association list filtered to exclude that key
finds nothing. -/
theorem lookup_filter_key_ne {β : Type} (l : List (Nat × β)) (id : Nat) :
    (l.filter (fun p => !(p.1 == id))).lookup id = none := by
  induction l with
  | nil => rfl
  | cons p t ih =>
      obtain ⟨k, v⟩ := p
      by_cases h : k = id
      · rw [List.filter_cons]
        have hdrop : (!((k, v).1 == id)) = false := by simp [h]
        rw [hdrop]
        simpa using ih
      · rw [List.filter_cons]
        have hkeep : (!((k, v).1 == id)) = true := by simp [h]
        rw [hkeep]
        simp only [if_true, List.lookup]
        have hik : (id == k) = false := by simp [Ne.symm h]
        rw [hik]
        exact ih

/-- A lookup in an association list filtered to exclude a value never
returns that value. -/
theorem lookup_filter_val_ne (l : List (Nat × Nat)) (m src mid : Nat)
    (h : (l.filter (fun p => !(p.2 == m))).lookup src = some mid) : mid ≠ m := by
  induction l with
  | nil => simp [List.lookup] at h
  | cons p t ih =>
      obtain ⟨k, v⟩ := p
      by_cases hv : v = m
      · subst hv
        rw [List.filter_cons] at h
        simp at h
        exact ih h
      · rw [List.filter_cons] at h
        have hkeep : (!((k, v).2 == m)) = true := by simp [hv]
        rw [hkeep] at h
        simp only [if_true, List.lookup] at h
        by_cases hk : src = k
        · rw [show (src == k) = true by simp [hk]] at h
          simp at h
          omega
        · rw [show (src == k) = false by simp [hk]] at h
          exact ih h

/-- The freshly added artifact is on disk. -/
theorem mem_fsAdd_self (fs : Fs) (p : Path) : p ∈ fsAdd fs p :=
  List.mem_cons_self _ _

/-- Adding an artifact keeps every artifact already on disk. -/
theorem mem_fsAdd_of_mem (fs : Fs) (p q : Path) (h : p ∈ fs) : p ∈ fsAdd fs q := by
  by_cases hpq : p = q
  · subst hpq; exact List.mem_cons_self _ _
  · exact List.mem_cons_of_mem _ (List.mem_filter.mpr ⟨h, by simp [hpq]⟩)

/-- Removing one artifact keeps every other artifact. -/
theorem mem_fsRemove_of_mem (fs : Fs) (p q : Path) (h : p ∈ fs) (hne : p ≠ q) :
    p ∈ fsRemove fs q :=
  List.mem_filter.mpr ⟨h, by simp [hne]⟩

/-- The event socket path and the feedback socket path of a device never
coincide (the latter is nine characters longer). -/
theorem event_path_ne_feedback_path (id : DeviceId) :
    devices_event_socket_path id ≠ devices_feedback_socket_path id := by
  intro h
  have h2 := congrArg String.length h
  simp only [devices_event_socket_path, devices_feedback_socket_path,
    String.length_append] at h2
  have hc : (".feedback" : String).length = 9 := rfl
  omega

/-- The sysfs input subtree path and the feedback socket path of a device
never coincide. -/
theorem sysfs_path_ne_feedback_path (id : DeviceId) :
    sysfs_input_dir_path id ≠ devices_feedback_socket_path id := by
  intro h
  have h2 := congrArg String.length h
  simp only [sysfs_input_dir_path, devices_feedback_socket_path,
    String.length_append] at h2
  have hc1 : ("sysfs/devices/virtual/input/input" : String).length = 33 := rfl
  have hc2 : ("devices/event" : String).length = 13 := rfl
  have hc3 : (".feedback" : String).length = 9 := rfl
  omega

/-- The sysfs class symlink path and the feedback socket path of a device
never coincide. -/
theorem class_path_ne_feedback_path (id : DeviceId) :
    sysfs_class_link_path id ≠ devices_feedback_socket_path id := by
  intro h
  have h2 := congrArg String.length h
  simp only [sysfs_class_link_path, devices_feedback_socket_path,
    String.length_append] at h2
  have hc1 : ("sysfs/class/input/event" : String).length = 23 := rfl
  have hc2 : ("devices/event" : String).length = 13 := rfl
  have hc3 : (".feedback" : String).length = 9 := rfl
  omega

/-- The udev data file path and the feedback socket path of a device never
coincide (their first characters differ). -/
theorem udev_path_ne_feedback_path (id : DeviceId) :
    udev_data_path id ≠ devices_feedback_socket_path id := by
  intro h
  have h2 := congrArg String.data h
  simp only [udev_data_path, udev_data_file_name, devices_feedback_socket_path,
    String.data_append] at h2
  simp only [List.cons_append, List.nil_append] at h2
  injection h2 with h3 _
  exact absurd h3 (by decide)

/-! ## Claim C1 : device id allocation -/

/-- C1 counterexample: the sequence CreateDevice, DestroyDevice 0,
CreateDevice hands out ids 0 then 1. The claim predicts the second
CreateDevice returns the freed id 0 (freelist-first); the code has no
freelist and returns the counter value 1. -/
theorem C1_counterexample :
    created_ids ⟨0, []⟩
      [ControlCommand.CreateDevice sampleConfig,
       ControlCommand.DestroyDevice 0,
       ControlCommand.CreateDevice sampleConfig] = [0, 1] ∧
    (1 : DeviceId) ≠ 0 := by
  exact ⟨rfl, by decide⟩

/-- C1 amended: device ids are allocated monotonically from a counter
starting at 0; there is no freelist, so freed ids are never reused: along
any command sequence the CreateDevice responses hand out exactly the
consecutive counter values, regardless of interleaved DestroyDevice
commands. -/
theorem C1_ids_are_consecutive_counter_values (cmds : List ControlCommand) :
    ∀ st : ManagerState,
      created_ids st cmds = List.range' st.next_device_id (countCreates cmds) := by
  induction cmds with
  | nil => intro st; rfl
  | cons c rest ih =>
      intro st
      cases c with
      | CreateDevice config =>
          simp [created_ids, process_command, countCreates, List.range'_succ, ih]
      | DestroyDevice id =>
          cases hl : st.devices.lookup id with
          | some cfg => simp [created_ids, process_command, hl, countCreates, ih]
          | none => simp [created_ids, process_command, hl, countCreates, ih]
      | SendInput id events =>
          cases hl : st.devices.lookup id with
          | some cfg => simp [created_ids, process_command, hl, countCreates, ih]
          | none => simp [created_ids, process_command, hl, countCreates, ih]
      | ListDevices => simp [created_ids, process_command, countCreates, ih]
      | Ping => simp [created_ids, process_command, countCreates, ih]

/-! ## Claim C2 : SYN_REPORT termination of the evdev fan-out -/

/-- C2 counterexample: the batch [Sync, Button A pressed] translates to a
SYN_REPORT followed by a key record; the whole-batch scan finds the
mid-batch SYN_REPORT, so none is appended and the LAST record of the
written buffer is the key record, not SYN_REPORT. -/
theorem C2_counterexample :
    (send_evdev_records [InputEvent.sync, InputEvent.button Button.A true]).getLast?
      = some ⟨EV_KEY, 0x130, 1⟩ ∧
    LinuxInputEvent.is_syn_report ⟨EV_KEY, 0x130, 1⟩ = false := by
  exact ⟨rfl, by decide⟩

/-- C2 amended: for every non-empty batch, a SYN_REPORT is appended exactly
when the translated batch contains no SYN_REPORT anywhere; consequently the
written buffer always contains at least one SYN_REPORT record, and whenever
the translated batch itself has no SYN_REPORT the last record of the buffer
is the appended SYN_REPORT. -/
theorem C2_syn_report_appended_when_absent (events : List InputEvent)
    (h : events ≠ []) :
    (send_evdev_records events).any LinuxInputEvent.is_syn_report = true ∧
    ((events.map InputEvent.to_linux_input_event).any LinuxInputEvent.is_syn_report = false →
      (send_evdev_records events).getLast? = some ⟨EV_SYN, SYN_REPORT, 0⟩) := by
  unfold send_evdev_records
  cases hs : (events.map InputEvent.to_linux_input_event).any LinuxInputEvent.is_syn_report with
  | true =>
      refine ⟨by simp [hs], ?_⟩
      intro hfalse
      simp [hs] at hfalse
  | false =>
      have hne : (events.map InputEvent.to_linux_input_event).isEmpty = false := by
        cases events with
        | nil => exact absurd rfl h
        | cons e es => rfl
      refine ⟨?_, ?_⟩
      · simp only [hs, hne, Bool.not_false, Bool.and_self, if_true]
        simp [List.any_append, LinuxInputEvent.is_syn_report, EV_SYN, SYN_REPORT]
      · intro _
        simp only [hs, hne, Bool.not_false, Bool.and_self, if_true]
        exact List.getLast?_concat _

/-- C2 witness: the amended statement instantiated at the singleton batch
[Button A pressed]. -/
theorem C2_witness :
    (send_evdev_records [InputEvent.button Button.A true]).any
        LinuxInputEvent.is_syn_report = true ∧
    (([InputEvent.button Button.A true].map InputEvent.to_linux_input_event).any
          LinuxInputEvent.is_syn_report = false →
      (send_evdev_records [InputEvent.button Button.A true]).getLast?
        = some ⟨EV_SYN, SYN_REPORT, 0⟩) :=
  C2_syn_report_appended_when_absent [InputEvent.button Button.A true] (by decide)

/-! ## Claim C4 : axis-to-event-code mapping -/

/-- C4 counterexample: the trigger axes map to 0x15 (ABS_HAT2Y) and 0x14
(ABS_HAT2X), not to 0x02 (ABS_Z) and 0x05 (ABS_RZ) as the claim tabulates. -/
theorem C4_counterexample :
    Axis.to_ev_code Axis.LowerLeftTrigger = 0x15 ∧
    Axis.to_ev_code Axis.LowerRightTrigger = 0x14 ∧
    ¬(Axis.to_ev_code Axis.LowerLeftTrigger = 0x02 ∧
      Axis.to_ev_code Axis.LowerRightTrigger = 0x05) := by
  decide

/-- C4 amended: the wire mapping is LeftStickX=0x00, LeftStickY=0x01,
RightStickX=0x03, RightStickY=0x04, DPadX=0x10, DPadY=0x11 as claimed, but
the trigger axes map to 0x15/0x14 (and the bumper axes to 0x13/0x12); no
non-custom axis maps to 0x02 or 0x05. The abs capability bitmask computed
from a config declaring the eight standard axes accordingly has bits
0,1,3,4,0x10,0x11,0x14,0x15 set: it renders as "33001b", not "3f001b". -/
theorem C4_axis_code_table :
    Axis.to_ev_code Axis.LeftStickX = 0x00 ∧
    Axis.to_ev_code Axis.LeftStickY = 0x01 ∧
    Axis.to_ev_code Axis.RightStickX = 0x03 ∧
    Axis.to_ev_code Axis.RightStickY = 0x04 ∧
    Axis.to_ev_code Axis.DPadX = 0x10 ∧
    Axis.to_ev_code Axis.DPadY = 0x11 ∧
    Axis.to_ev_code Axis.LowerLeftTrigger = 0x15 ∧
    Axis.to_ev_code Axis.LowerRightTrigger = 0x14 ∧
    Axis.to_ev_code Axis.UpperLeftBumper = 0x13 ∧
    Axis.to_ev_code Axis.UpperRightBumper = 0x12 ∧
    (∀ a : Axis, Axis.to_ev_code a = 0x02 → a = Axis.Custom 0x02) ∧
    (∀ a : Axis, Axis.to_ev_code a = 0x05 → a = Axis.Custom 0x05) ∧
    calculate_abs_bits standardAxesConfig = "33001b" := by
  refine ⟨rfl, rfl, rfl, rfl, rfl, rfl, rfl, rfl, rfl, rfl, ?_, ?_, by decide⟩
  · intro a ha
    cases a <;> simp_all [Axis.to_ev_code]
  · intro a ha
    cases a <;> simp_all [Axis.to_ev_code]

/-! ## Claim C5 : PollFeedback command -/

/-- C5 counterexample: the control-plane command set has no PollFeedback
tag, so a message carrying one fails to parse, and no FeedbackPolled result
exists among the result tags. -/
theorem C5_counterexample :
    isControlCommandTag "PollFeedback" = false ∧
    controlResultTags.contains "FeedbackPolled" = false := by
  decide

/-- C5 amended: the control plane accepts exactly the five commands
CreateDevice, DestroyDevice, SendInput, ListDevices, Ping; a well-formed
message whose command is tagged PollFeedback fails to parse, and
`Manager::handle_client` logs and skips it without producing any response. -/
theorem C5_command_set_excludes_pollfeedback :
    (∀ c : ControlCommand, isControlCommandTag c.tag = true) ∧
    "PollFeedback" ∉ controlCommandTags := by
  refine ⟨?_, by decide⟩
  intro c
  cases c <;> rfl

/-! ## Claim C3 : uinput session EOF cleanup -/

/-- C3 counterexample: after a successful DevCreate (source 0, mirror 1),
transport EOF removes mirror device 1 from the registry but leaves the
mirror map holding the stale entry (0, 1) pointing at the destroyed
device. The claim predicts EOF runs the same cleanup as DevDestroy, which
would erase the entry. -/
theorem C3_counterexample :
    (uinput_session_eof
        (uinput_dev_create ⟨[(0, sampleConfig)], 1, []⟩ ⟨none, none⟩ sampleConfig).1
        (uinput_dev_create ⟨[(0, sampleConfig)], 1, []⟩ ⟨none, none⟩ sampleConfig).2.1).mirror_map
      = [(0, 1)] ∧
    ((uinput_session_eof
        (uinput_dev_create ⟨[(0, sampleConfig)], 1, []⟩ ⟨none, none⟩ sampleConfig).1
        (uinput_dev_create ⟨[(0, sampleConfig)], 1, []⟩ ⟨none, none⟩ sampleConfig).2.1).devices).lookup 1
      = none := by
  exact ⟨rfl, rfl⟩

/-- C3 amended: when the session's transport reaches EOF after a successful
DevCreate of mirror m, only the registry removal of DevDestroy runs: m is
gone from the device registry but the mirror map is left completely
unchanged (stale entries pointing at m persist); the erasure of entries
whose value is m happens only on an explicit DevDestroy. -/
theorem C3_eof_removes_device_but_keeps_mirror_map (g : UinputServerState)
    (s : UinputSessionVars) (m src mid : DeviceId)
    (hb : s.bound_device_id = some m) (hc : s.created_device_id = some m)
    (hd : ((uinput_dev_destroy g s).1.mirror_map).lookup src = some mid) :
    ((uinput_session_eof g s).devices).lookup m = none ∧
    (uinput_session_eof g s).mirror_map = g.mirror_map ∧
    mid ≠ m := by
  refine ⟨?_, ?_, ?_⟩
  · simp only [uinput_session_eof, hc, registryRemove]
    exact lookup_filter_key_ne g.devices m
  · simp only [uinput_session_eof, hc]
  · simp only [uinput_dev_destroy, hb] at hd
    exact lookup_filter_val_ne g.mirror_map m src mid hd

/-- C3 witness: the amended statement instantiated after a DevCreate that
produced mirror 1 from source 0, with a second mirror pair (5, 7) in the
map. -/
theorem C3_witness :
    ((uinput_session_eof ⟨[(1, sampleConfig), (0, sampleConfig)], 2, [(0, 1), (5, 7)]⟩
        ⟨some 1, some 1⟩).devices).lookup 1 = none ∧
    (uinput_session_eof ⟨[(1, sampleConfig), (0, sampleConfig)], 2, [(0, 1), (5, 7)]⟩
        ⟨some 1, some 1⟩).mirror_map = [(0, 1), (5, 7)] ∧
    (7 : DeviceId) ≠ 1 :=
  C3_eof_removes_device_but_keeps_mirror_map
    ⟨[(1, sampleConfig), (0, sampleConfig)], 2, [(0, 1), (5, 7)]⟩
    ⟨some 1, some 1⟩ 1 5 7 rfl rfl (by decide)

/-! ## Claim C6 : joystick axis value clamping -/

/-- The clamped-then-cast pipeline of the joystick encoder equals the
mathematical clamp into the signed-16-bit range: the clamp happens BEFORE
the i16 cast, so the cast never wraps. -/
theorem toI16_clamp_eq (v : Int) :
    toI16 (clampI32 v (-32768) 32767) = max (-32768) (min 32767 v) := by
  simp only [toI16, clampI32]
  split_ifs <;> omega

/-- C6: every joystick record encoded for an axis event carries the value
max(-32768, min(32767, v)). -/
theorem C6_joystick_value_clamped (config : DeviceConfig) (a : Axis) (v : Int)
    (r : LinuxJsEvent)
    (hr : r ∈ send_joystick_records config [InputEvent.axis a v]) :
    r.value = max (-32768) (min 32767 v) := by
  simp only [send_joystick_records, List.map, List.flatten, List.append_nil,
    js_records_for_event] at hr
  cases hidx : config.axes.findIdx? (fun ac => ac.axis == a) with
  | none => rw [hidx] at hr; simp at hr
  | some i =>
      rw [hidx] at hr
      simp at hr
      rw [hr]
      exact toI16_clamp_eq v

/-- C6 witness: the clamp statement instantiated at a device declaring
LeftStickX and the out-of-range value 50000, whose encoded record is
(32767, AXIS, 0). -/
theorem C6_witness :
    (⟨32767, JS_EVENT_AXIS, 0⟩ : LinuxJsEvent).value
      = max (-32768) (min 32767 (50000 : Int)) :=
  C6_joystick_value_clamped sampleConfig Axis.LeftStickX 50000
    ⟨32767, JS_EVENT_AXIS, 0⟩ (by decide)

/-! ## Claim C7 : atomicity of device construction -/

/-- C7 counterexample: from a fresh manager and an empty filesystem, making
the feedback-socket bind fail yields a structured Error, BUT the event
socket, the sysfs subtree, the class symlink and the udev data file are all
still on disk, and the device id counter has advanced to 1: side effects
persist and the allocated id is consumed. -/
theorem C7_counterexample :
    (manager_create_device [devices_feedback_socket_path 0] ⟨0, [], []⟩ sampleConfig).1
      = ControlResult.Error "Failed to create device" ∧
    (manager_create_device [devices_feedback_socket_path 0] ⟨0, [], []⟩ sampleConfig).2.next_device_id
      = 1 ∧
    devices_event_socket_path 0
      ∈ (manager_create_device [devices_feedback_socket_path 0] ⟨0, [], []⟩ sampleConfig).2.fs ∧
    sysfs_input_dir_path 0
      ∈ (manager_create_device [devices_feedback_socket_path 0] ⟨0, [], []⟩ sampleConfig).2.fs ∧
    sysfs_class_link_path 0
      ∈ (manager_create_device [devices_feedback_socket_path 0] ⟨0, [], []⟩ sampleConfig).2.fs ∧
    udev_data_path 0
      ∈ (manager_create_device [devices_feedback_socket_path 0] ⟨0, [], []⟩ sampleConfig).2.fs := by
  exact ⟨rfl, rfl, by decide, by decide, by decide, by decide⟩

/-- C7 amended: device construction is NOT atomic. When a construction step
fails (here: the feedback-socket bind, with all earlier steps succeeding),
the request does return a structured Error and the registry is unchanged,
but the artifacts created by the earlier steps - the event socket, the
sysfs subtree, the class symlink and the udev data file - persist on disk,
and the allocated device id is consumed (the counter stays advanced, and
with no freelist the id is lost). -/
theorem C7_failed_create_leaves_artifacts (failing : List Path)
    (st : ManagerFsState) (config : DeviceConfig)
    (hf : failing.contains (devices_feedback_socket_path st.next_device_id) = true)
    (h1 : failing.contains (devices_event_socket_path st.next_device_id) = false)
    (h2 : failing.contains (sysfs_input_dir_path st.next_device_id) = false)
    (h3 : failing.contains (sysfs_class_link_path st.next_device_id) = false)
    (h4 : failing.contains (udev_data_path st.next_device_id) = false) :
    (manager_create_device failing st config).1
      = ControlResult.Error "Failed to create device" ∧
    (manager_create_device failing st config).2.next_device_id
      = st.next_device_id + 1 ∧
    (manager_create_device failing st config).2.devices = st.devices ∧
    devices_event_socket_path st.next_device_id
      ∈ (manager_create_device failing st config).2.fs ∧
    sysfs_input_dir_path st.next_device_id
      ∈ (manager_create_device failing st config).2.fs ∧
    sysfs_class_link_path st.next_device_id
      ∈ (manager_create_device failing st config).2.fs ∧
    udev_data_path st.next_device_id
      ∈ (manager_create_device failing st config).2.fs := by
  have hcreate : virtual_device_create failing st.next_device_id config st.fs
      = (false,
         fsRemove
           (fsAdd
             (fsAdd
               (fsAdd
                 (fsAdd (fsRemove st.fs (devices_event_socket_path st.next_device_id))
                   (devices_event_socket_path st.next_device_id))
                 (sysfs_input_dir_path st.next_device_id))
               (sysfs_class_link_path st.next_device_id))
             (udev_data_path st.next_device_id))
           (devices_feedback_socket_path st.next_device_id)) := by
    simp only [virtual_device_create, tryStep, hf, h1, h2, h3, h4,
      Bool.false_eq_true, if_false, if_true]
  have hevent : devices_event_socket_path st.next_device_id
      ∈ fsAdd (fsRemove st.fs (devices_event_socket_path st.next_device_id))
          (devices_event_socket_path st.next_device_id) :=
    mem_fsAdd_self _ _
  have hsys : sysfs_input_dir_path st.next_device_id
      ∈ fsAdd (fsAdd (fsRemove st.fs (devices_event_socket_path st.next_device_id))
            (devices_event_socket_path st.next_device_id))
          (sysfs_input_dir_path st.next_device_id) :=
    mem_fsAdd_self _ _
  have hcls : sysfs_class_link_path st.next_device_id
      ∈ fsAdd (fsAdd (fsAdd (fsRemove st.fs (devices_event_socket_path st.next_device_id))
              (devices_event_socket_path st.next_device_id))
            (sysfs_input_dir_path st.next_device_id))
          (sysfs_class_link_path st.next_device_id) :=
    mem_fsAdd_self _ _
  refine ⟨?_, ?_, ?_, ?_, ?_, ?_, ?_⟩
  · simp only [manager_create_device, hcreate]
  · simp only [manager_create_device, hcreate]
  · simp only [manager_create_device, hcreate]
  · simp only [manager_create_device, hcreate]
    exact mem_fsRemove_of_mem _ _ _
      (mem_fsAdd_of_mem _ _ _ (mem_fsAdd_of_mem _ _ _ (mem_fsAdd_of_mem _ _ _ hevent)))
      (event_path_ne_feedback_path _)
  · simp only [manager_create_device, hcreate]
    exact mem_fsRemove_of_mem _ _ _
      (mem_fsAdd_of_mem _ _ _ (mem_fsAdd_of_mem _ _ _ hsys))
      (sysfs_path_ne_feedback_path _)
  · simp only [manager_create_device, hcreate]
    exact mem_fsRemove_of_mem _ _ _
      (mem_fsAdd_of_mem _ _ _ hcls)
      (class_path_ne_feedback_path _)
  · simp only [manager_create_device, hcreate]
    exact mem_fsRemove_of_mem _ _ _ (mem_fsAdd_self _ _)
      (udev_path_ne_feedback_path _)

/-- C7 witness: the amended statement instantiated at a fresh manager, an
empty filesystem and a feedback-socket bind failure. -/
theorem C7_witness :
    (manager_create_device [devices_feedback_socket_path 0] ⟨0, [], []⟩ sampleConfig).1
      = ControlResult.Error "Failed to create device" ∧
    (manager_create_device [devices_feedback_socket_path 0] ⟨0, [], []⟩ sampleConfig).2.next_device_id
      = 0 + 1 ∧
    (manager_create_device [devices_feedback_socket_path 0] ⟨0, [], []⟩ sampleConfig).2.devices
      = [] ∧
    devices_event_socket_path 0
      ∈ (manager_create_device [devices_feedback_socket_path 0] ⟨0, [], []⟩ sampleConfig).2.fs ∧
    sysfs_input_dir_path 0
      ∈ (manager_create_device [devices_feedback_socket_path 0] ⟨0, [], []⟩ sampleConfig).2.fs ∧
    sysfs_class_link_path 0
      ∈ (manager_create_device [devices_feedback_socket_path 0] ⟨0, [], []⟩ sampleConfig).2.fs ∧
    udev_data_path 0
      ∈ (manager_create_device [devices_feedback_socket_path 0] ⟨0, [], []⟩ sampleConfig).2.fs :=
  C7_failed_create_leaves_artifacts [devices_feedback_socket_path 0] ⟨0, [], []⟩
    sampleConfig (by decide) (by decide) (by decide) (by decide) (by decide)

/-! ## Claim C8 : sysfs dev file minor number -/

/-- C8: evaluation at device id 0. The event0/dev file is written with
content "13:0" + newline - minor equal to the device id - while the udev
data file for the same device is named c13:64 (minor 64 + id) and the
launcher fakes fstat minor 64 + id. The dev file therefore does NOT hold
the claimed "13:64" + newline, contradicting the minor numbering used
everywhere else in the system. -/
theorem C8_dev_file_minor_mismatch :
    dev_file_content 0 = "13:0\n" ∧
    udev_data_file_name 0 = "c13:64" ∧
    launcher_fstat_minor 0 = 64 ∧
    dev_file_content 0 ≠ "13:64\n" := by
  exact ⟨rfl, rfl, rfl, by decide⟩

/-! ## Claim C9 : empty batch produces zero bytes -/

/-- C9: a SendInput with an empty events list succeeds with InputSent,
changes no state, appends no SYN_REPORT, and writes zero bytes to every
evdev and joystick consumer. -/
theorem C9_empty_batch_zero_bytes (st : ManagerState) (id : DeviceId)
    (config : DeviceConfig) (h : st.devices.lookup id = some config) :
    (process_command st (.SendInput id [])).1 = ControlResult.InputSent ∧
    (process_command st (.SendInput id [])).2 = st ∧
    send_evdev_records [] = [] ∧
    evdevWireLen [] = 0 ∧
    send_joystick_records config [] = [] ∧
    jsWireLen config [] = 0 := by
  refine ⟨?_, ?_, rfl, rfl, rfl, ?_⟩
  · simp [process_command, h]
  · simp [process_command, h]
  · simp [jsWireLen, send_joystick_records]

/-- C9 witness: the empty-batch statement instantiated at a manager owning
device 0. -/
theorem C9_witness :
    (process_command ⟨1, [(0, sampleConfig)]⟩ (.SendInput 0 [])).1
      = ControlResult.InputSent ∧
    (process_command ⟨1, [(0, sampleConfig)]⟩ (.SendInput 0 [])).2
      = ⟨1, [(0, sampleConfig)]⟩ ∧
    send_evdev_records [] = [] ∧
    evdevWireLen [] = 0 ∧
    send_joystick_records sampleConfig [] = [] ∧
    jsWireLen sampleConfig [] = 0 :=
  C9_empty_batch_zero_bytes ⟨1, [(0, sampleConfig)]⟩ 0 sampleConfig (by decide)

/-! ## Claim C10 : joystick stream as a filtered projection -/

/-- C10: for a batch holding a button absent from config.buttons and an
axis absent from config.axes, the joystick encoder emits NO record (the
batch is silently filtered, never an error), while the evdev encoder still
emits one 24-byte record per event (plus the appended SYN_REPORT). -/
theorem C10_joystick_filters_undeclared_events (config : DeviceConfig)
    (b : Button) (p : Bool) (a : Axis) (v : Int)
    (hb : b ∉ config.buttons) (ha : ∀ ac ∈ config.axes, ac.axis ≠ a) :
    send_joystick_records config [InputEvent.button b p, InputEvent.axis a v] = [] ∧
    send_evdev_records [InputEvent.button b p, InputEvent.axis a v] =
      [⟨EV_KEY, b.to_ev_code, if p then 1 else 0⟩,
       ⟨EV_ABS, a.to_ev_code, v⟩,
       ⟨EV_SYN, SYN_REPORT, 0⟩] := by
  have hfb : config.buttons.findIdx? (fun x => x == b) = none :=
    findIdx_none_of_forall _ _ (fun x hx => by
      simp only [beq_eq_false_iff_ne]
      intro hxb
      exact hb (hxb ▸ hx))
  have hfa : config.axes.findIdx? (fun ac => ac.axis == a) = none :=
    findIdx_none_of_forall _ _ (fun ac hac => by
      simp only [beq_eq_false_iff_ne]
      exact ha ac hac)
  constructor
  · simp [send_joystick_records, js_records_for_event, hfb, hfa]
  · simp [send_evdev_records, InputEvent.to_linux_input_event,
      LinuxInputEvent.is_syn_report, EV_KEY, EV_ABS, EV_SYN, SYN_REPORT]

/-- C10 witness: the filtering statement instantiated at a device declaring
only button A and axis LeftStickX, receiving button B and axis RightStickX. -/
theorem C10_witness :
    send_joystick_records sampleConfig
      [InputEvent.button Button.B true, InputEvent.axis Axis.RightStickX 7] = [] ∧
    send_evdev_records [InputEvent.button Button.B true, InputEvent.axis Axis.RightStickX 7] =
      [⟨EV_KEY, Button.B.to_ev_code, if true then 1 else 0⟩,
       ⟨EV_ABS, Axis.RightStickX.to_ev_code, 7⟩,
       ⟨EV_SYN, SYN_REPORT, 0⟩] :=
  C10_joystick_filters_undeclared_events sampleConfig Button.B true Axis.RightStickX 7
    (by decide) (by decide)

end Vimputti
